import Mathlib

/-
Verification development for the BORE suggestion controller
(`bore/plugins/hpbandster.py` single-fidelity `RatioEstimator`, and
`bore/plugins/hpbandster/multi_fidelity.py` `SequenceClassifierConfigGenerator`).

The controller is embedded shallowly: dense configuration vectors are lists of
rationals, the external stochastic collaborators (the configuration-space
sampler, the per-instance numpy `RandomState`, the multi-start acquisition
optimizer, the truncated-normal distortion noise, and the configuration-space
encoder) are modelled as deterministic oracles indexed by explicit stream
positions, so that which generator a draw is routed through, and how far each
stream advances, is visible in the state.
-/

namespace Bore

/-- A dense configuration vector (the encoding of a configuration). -/
abbrev Vec := List ℚ

/-- One stored observation: dense vector `x`, loss `y`, budget `b`
(`bore.data.Record` rows). -/
structure Observation where
  x : Vec
  y : ℚ
  b : ℚ
  deriving DecidableEq, Repr

/-- A successful result of the multi-start acquisition optimizer:
the arg-optimum vector and the objective value (`res.x`, `res.fun`). -/
structure OptResult where
  x : Vec
  fval : ℚ
  deriving DecidableEq, Repr

/-- The two distinct reasons the multi-start optimizer can return no usable
optimum: every restart failed, or every optimum duplicated a stored point. -/
inductive NoneCause
  | allFailed
  | allDuplicates
  deriving DecidableEq, Repr

/-- Outcome of one invocation of the multi-start optimizer: the optional
result, the underlying cause when the result is `none`, and how many draws it
consumed from the instance `RandomState` stream. -/
structure OptOutcome where
  result : Option OptResult
  cause : NoneCause
  consumed : Nat
  deriving Repr

/-- The external collaborators of the controller, modelled as deterministic
oracles. `csSample n` is the `n`-th output of the configuration-space sampler
(its own seeded generator); `bern n p` is the Bernoulli(`p`) draw made at
position `n` of the instance `RandomState` stream; `optimize n rec` is the
multi-start optimizer invoked at `RandomState` position `n` with duplicate
filtering against record `rec`; `noise n` is the raw distortion noise at
position `n`; `encode c` is the dense encoding of configuration `c`. -/
structure Oracles where
  csSample : Nat → Vec
  bern : Nat → ℚ → Bool
  optimize : Nat → List Observation → OptOutcome
  noise : Nat → Vec
  encode : Nat → Vec

/-- Hyperparameters of the config generator that the embedded control flow
reads (`RatioEstimator.__init__` fields). -/
structure Params where
  gamma : ℚ
  numRandomInit : Nat
  randomRate : Option ℚ
  retrain : Bool
  batchSize : Nat
  numStepsPerIter : Nat
  numEpochs : Option Nat
  numStarts : Nat
  distortion : Option ℚ
  lb : Vec
  ub : Vec
  deriving Repr

/-- Mutable state of a single-fidelity `RatioEstimator` instance: the Record,
the positions of the two random streams, whether the classifier object exists
(`self.logit is not None`), and the epoch count of every training call made so
far. -/
structure GenState where
  record : List Observation
  rsPos : Nat
  csPos : Nat
  logitBuilt : Bool
  trainEpochs : List Nat
  deriving DecidableEq, Repr

/-- Mutable state of a multi-fidelity `SequenceClassifierConfigGenerator`
instance; `funcs` is the list of rung indices whose one-to-one scorer head has
been built and cached. -/
structure MFState where
  record : List Observation
  rsPos : Nat
  csPos : Nat
  funcs : List Nat
  trainEpochs : List Nat
  deriving DecidableEq, Repr

/-- The diagnostics `get_config` emits, abstracted from the log strings.
`globMaxNotFound` is the single combined warning emitted when the optimizer
returns no usable optimum; it carries only the number of starts. -/
inductive LogMsg
  | epsSkip
  | insufficient (done need : Nat)
  | noEligibleRung (need : Nat)
  | rungSelected (t : Nat)
  | globMaxNotFound (numStarts : Nat)
  | globMax (x : Vec)
  | distorted (x : Vec)
  deriving DecidableEq, Repr

/-- The suggestion returned by `get_config`, as the dense vector it decodes:
either the freshly drawn random configuration or the (possibly distorted)
model optimum. -/
inductive Suggestion
  | random (v : Vec)
  | model (v : Vec)
  deriving DecidableEq, Repr

/-- Output of one single-fidelity `get_config` call. -/
structure StepOut where
  suggestion : Suggestion
  state : GenState
  log : List LogMsg
  deriving DecidableEq, Repr

/-- Output of one multi-fidelity `get_config` call; `selectedRung` is the rung
whose cached scorer head the call trained and maximized, when it got that far. -/
structure MFStepOut where
  suggestion : Suggestion
  state : MFState
  selectedRung : Option Nat
  log : List LogMsg
  deriving DecidableEq, Repr

/-- Pointwise clamp of `x` into `[lo, hi]`. -/
def clip (lo hi x : ℚ) : ℚ := max lo (min hi x)

/-- Modelled from the spec: `bore.engine.truncated_normal(loc, scale, lower,
upper).rvs(random_state)` is not under `src/`; the spec describes it as a
bounded draw centered at the optimum and clipped to the box bounds, so the
draw is modelled as `loc + scale * noise` clamped coordinatewise into
`[lb, ub]`, with `noise` the abstract raw draw. -/
def truncatedNormalDraw (loc : Vec) (scale : ℚ) (lb ub noise : Vec) : Vec :=
  (List.range loc.length).map fun i =>
    clip (lb.getD i 0) (ub.getD i 0) (loc.getD i 0 + scale * noise.getD i 0)

/-- Embedding of `maybe_distort` (`hpbandster.py`): with no distortion the
location is returned unchanged; with a distortion scale a truncated-normal
draw replaces it. -/
def maybeDistort (loc : Vec) (distortion : Option ℚ) (lb ub noise : Vec) : Vec :=
  match distortion with
  | none => loc
  | some scale => truncatedNormalDraw loc scale lb ub noise

/-- Embedding of `RatioEstimator._get_steps_per_epoch`:
`int(np.ceil(dataset_size / batch_size))`, as natural ceiling division. -/
def getStepsPerEpoch (datasetSize batchSize : Nat) : Nat :=
  (datasetSize + batchSize - 1) / batchSize

/-- The epoch count `_update_classifier` passes to `fit`: the explicit
`num_epochs` when given, else `num_steps_per_iter // steps_per_epoch`. -/
def numEpochsUsed (p : Params) (datasetSize : Nat) : Nat :=
  match p.numEpochs with
  | some e => e
  | none => p.numStepsPerIter / getStepsPerEpoch datasetSize p.batchSize

/-- The epsilon-greedy condition of `get_config`: `self.random_rate is not
None and self.random_state.binomial(p=self.random_rate, n=1)`. The Bernoulli
draw is made (and the `RandomState` stream consumed) only when `random_rate`
is set. -/
def epsDraw (p : Params) (o : Oracles) (pos : Nat) : Option Bool :=
  p.randomRate.map fun rate => o.bern pos rate

/-- Embedding of `RatioEstimator.get_config(budget)`. Mirrors the source
order: sample a random configuration first, then the epsilon-greedy trial,
then the insufficient-data check, then classifier creation and training, then
multi-start maximization, then optional distortion. -/
def getConfigSF (p : Params) (o : Oracles) (s : GenState) (budget : ℚ) : StepOut :=
  let _ := budget
  let datasetSize := s.record.length
  let configRandom := o.csSample s.csPos
  let eps := epsDraw p o s.rsPos
  let s1 : GenState :=
    { s with csPos := s.csPos + 1,
             rsPos := if p.randomRate.isSome then s.rsPos + 1 else s.rsPos }
  if eps = some true then
    { suggestion := Suggestion.random configRandom, state := s1,
      log := [LogMsg.epsSkip] }
  else if datasetSize < p.numRandomInit then
    { suggestion := Suggestion.random configRandom, state := s1,
      log := [LogMsg.insufficient datasetSize p.numRandomInit] }
  else
    let s2 : GenState := { s1 with logitBuilt := true }
    let epochs := numEpochsUsed p datasetSize
    let s3 : GenState := { s2 with trainEpochs := s2.trainEpochs ++ [epochs] }
    let oc := o.optimize s3.rsPos s3.record
    let s4 : GenState := { s3 with rsPos := s3.rsPos + oc.consumed }
    match oc.result with
    | none =>
        { suggestion := Suggestion.random configRandom, state := s4,
          log := [LogMsg.globMaxNotFound p.numStarts] }
    | some res =>
        let arr := maybeDistort res.x p.distortion p.lb p.ub (o.noise s4.rsPos)
        let s5 : GenState :=
          { s4 with rsPos := if p.distortion.isSome then s4.rsPos + 1 else s4.rsPos }
        let s6 : GenState :=
          { s5 with logitBuilt := if p.retrain then false else s5.logitBuilt }
        { suggestion := Suggestion.model arr, state := s6,
          log := if p.distortion.isSome then
                   [LogMsg.globMax res.x, LogMsg.distorted arr]
                 else [LogMsg.globMax res.x] }

/-- Insertion of a rational into an ascending list, keeping order. -/
def insertAsc (q : ℚ) : List ℚ → List ℚ
  | [] => [q]
  | x :: xs => if q ≤ x then q :: x :: xs else x :: insertAsc q xs

/-- Ascending insertion sort on rationals. -/
def sortAsc (l : List ℚ) : List ℚ := l.foldr insertAsc []

/-- Modelled from the spec: `MultiFidelityRecord` (`bore.data`, not under
`src/`) partitions observations into rungs keyed by the distinct budgets seen,
rungs zero-based by ascending budget. `budgets` is the ascending list of
distinct budgets. -/
def budgets (r : List Observation) : List ℚ :=
  sortAsc (r.map Observation.b).dedup

/-- Number of rungs: the count of distinct budgets seen. -/
def numRungs (r : List Observation) : Nat := (budgets r).length

/-- Size of rung `t`: the number of observations whose budget is the `t`-th
smallest distinct budget. -/
def rungSize (r : List Observation) (t : Nat) : Nat :=
  match (budgets r).get? t with
  | none => 0
  | some q => (r.filter fun ob => ob.b = q).length

/-- Scan rung indices `n-1, n-2, ..., 0` and return the first whose size
reaches `minSize`. -/
def highestRungAux (r : List Observation) (minSize : Nat) : Nat → Option Nat
  | 0 => none
  | t + 1 => if minSize ≤ rungSize r t then some t else highestRungAux r minSize t

/-- Modelled from the spec: `MultiFidelityRecord.highest_rung(min_size)` (not
under `src/`) scans rungs from highest budget to lowest and returns the first
with size at least `min_size`, or none when no rung qualifies. -/
def highestRung (r : List Observation) (minSize : Nat) : Option Nat :=
  highestRungAux r minSize (numRungs r)

/-- Modelled from the spec: `MultiFidelityRecord.num_features()` (not under
`src/`): the training set has one row per distinct `x` observed at any rung. -/
def numFeatures (r : List Observation) : Nat :=
  (r.map Observation.x).dedup.length

/-- Embedding of `SequenceClassifierConfigGenerator.get_config(budget)`:
random sample first, then the epsilon-greedy trial, then eligible-rung
selection via `highest_rung`, then training, then the cached rung head, then
multi-start maximization and optional distortion. -/
def getConfigMF (p : Params) (o : Oracles) (s : MFState) (budget : ℚ) : MFStepOut :=
  let _ := budget
  let configRandom := o.csSample s.csPos
  let eps := epsDraw p o s.rsPos
  let s1 : MFState :=
    { s with csPos := s.csPos + 1,
             rsPos := if p.randomRate.isSome then s.rsPos + 1 else s.rsPos }
  if eps = some true then
    { suggestion := Suggestion.random configRandom, state := s1,
      selectedRung := none, log := [LogMsg.epsSkip] }
  else
    match highestRung s1.record p.numRandomInit with
    | none =>
        { suggestion := Suggestion.random configRandom, state := s1,
          selectedRung := none, log := [LogMsg.noEligibleRung p.numRandomInit] }
    | some t =>
        let epochs := numEpochsUsed p (numFeatures s1.record)
        let s2 : MFState := { s1 with trainEpochs := s1.trainEpochs ++ [epochs] }
        let s3 : MFState :=
          { s2 with funcs := if t ∈ s2.funcs then s2.funcs else s2.funcs ++ [t] }
        let oc := o.optimize s3.rsPos s3.record
        let s4 : MFState := { s3 with rsPos := s3.rsPos + oc.consumed }
        match oc.result with
        | none =>
            { suggestion := Suggestion.random configRandom, state := s4,
              selectedRung := some t,
              log := [LogMsg.rungSelected t, LogMsg.globMaxNotFound p.numStarts] }
        | some res =>
            let arr := maybeDistort res.x p.distortion p.lb p.ub (o.noise s4.rsPos)
            let s5 : MFState :=
              { s4 with rsPos := if p.distortion.isSome then s4.rsPos + 1 else s4.rsPos }
            { suggestion := Suggestion.model arr, state := s5,
              selectedRung := some t,
              log := if p.distortion.isSome then
                       [LogMsg.rungSelected t, LogMsg.globMax res.x, LogMsg.distorted arr]
                     else [LogMsg.rungSelected t, LogMsg.globMax res.x] }

/-- A completed job as `new_result` reads it: `job.kwargs["config"]` (an
opaque configuration identifier), `job.result["loss"]`, and
`job.kwargs["budget"]`. -/
structure Job where
  config : Nat
  loss : ℚ
  budget : ℚ
  deriving DecidableEq, Repr

/-- Embedding of `RatioEstimator.new_result(job)`: encode the configuration
and append one observation to the Record. -/
def newResultSF (o : Oracles) (s : GenState) (job : Job) : GenState :=
  { s with record :=
      s.record ++ [{ x := o.encode job.config, y := job.loss, b := job.budget }] }

/-- Embedding of `SequenceClassifierConfigGenerator.new_result(job)`. -/
def newResultMF (o : Oracles) (s : MFState) (job : Job) : MFState :=
  { s with record :=
      s.record ++ [{ x := o.encode job.config, y := job.loss, b := job.budget }] }

/-- One scheduler interaction with the controller: a `get_config(budget)`
call or a `new_result(job)` call. -/
inductive Call
  | getCfg (budget : ℚ)
  | newRes (job : Job)
  deriving Repr

/-- Run a sequence of scheduler interactions against a single-fidelity
instance, collecting the suggestions. -/
def runCallsSF (p : Params) (o : Oracles) : GenState → List Call → List Suggestion × GenState
  | s, [] => ([], s)
  | s, Call.getCfg budget :: rest =>
      let out := getConfigSF p o s budget
      let rec' := runCallsSF p o out.state rest
      (out.suggestion :: rec'.1, rec'.2)
  | s, Call.newRes job :: rest => runCallsSF p o (newResultSF o s job) rest

/-- Validation errors at construction. `invalidParameter` stands for the
`assert` statements on hyperparameter ranges; `notImplemented` for the
`NotImplementedError` raised on `retrain=True` in the multi-fidelity variant. -/
inductive InitError
  | invalidParameter
  | notImplemented
  deriving DecidableEq, Repr

/-- The `random_rate` domain check: `random_rate is None or 0 <= random_rate < 1`. -/
def validRandomRate : Option ℚ → Bool
  | none => true
  | some r => decide (0 ≤ r ∧ r < 1)

/-- Embedding of the validation performed by `RatioEstimator.__init__`, in
source order: `gamma` in (0,1), `num_random_init > 0`, `random_rate` in
[0,1) or unset, `num_starts > 0`. On success the instance is created with the
given `retrain` flag. -/
def initChecksSF (gamma : ℚ) (numRandomInit : Nat) (randomRate : Option ℚ)
    (numStarts : Nat) (retrain : Bool) : Except InitError Bool :=
  if ¬ (0 < gamma ∧ gamma < 1) then Except.error InitError.invalidParameter
  else if numRandomInit = 0 then Except.error InitError.invalidParameter
  else if ¬ (validRandomRate randomRate = true) then Except.error InitError.invalidParameter
  else if numStarts = 0 then Except.error InitError.invalidParameter
  else Except.ok retrain

/-- Embedding of the validation performed by
`SequenceClassifierConfigGenerator.__init__`, in source order: the same three
range asserts, then `raise NotImplementedError` when `retrain` is true, then
`num_starts > 0`. -/
def initChecksMF (gamma : ℚ) (numRandomInit : Nat) (randomRate : Option ℚ)
    (numStarts : Nat) (retrain : Bool) : Except InitError Unit :=
  if ¬ (0 < gamma ∧ gamma < 1) then Except.error InitError.invalidParameter
  else if numRandomInit = 0 then Except.error InitError.invalidParameter
  else if ¬ (validRandomRate randomRate = true) then Except.error InitError.invalidParameter
  else if retrain then Except.error InitError.notImplemented
  else if numStarts = 0 then Except.error InitError.invalidParameter
  else Except.ok ()

/-- Concrete oracle family for witnesses: the sampler emits `[n]` at position
`n`, Bernoulli draws are false, the optimizer finds nothing (all restarts
failed), noise is zero. -/
def oTest : Oracles where
  csSample := fun n => [(n : ℚ)]
  bern := fun _ _ => false
  optimize := fun _ _ => { result := none, cause := NoneCause.allFailed, consumed := 0 }
  noise := fun _ => [0]
  encode := fun n => [(n : ℚ)]

/-- Same as `oTest` except the optimizer returns nothing because every
optimum was a duplicate of a stored point. -/
def oDup : Oracles :=
  { oTest with optimize := fun _ _ =>
      { result := none, cause := NoneCause.allDuplicates, consumed := 0 } }

/-- Same as `oTest` except the optimizer succeeds with optimum `[1/2]`. -/
def oOpt : Oracles :=
  { oTest with optimize := fun _ _ =>
      { result := some { x := [1/2], fval := -3 }, cause := NoneCause.allFailed,
        consumed := 2 } }

/-- Fresh single-fidelity state. -/
def sEmpty : GenState :=
  { record := [], rsPos := 0, csPos := 0, logitBuilt := false, trainEpochs := [] }

/-- Fresh multi-fidelity state. -/
def mfEmpty : MFState :=
  { record := [], rsPos := 0, csPos := 0, funcs := [], trainEpochs := [] }

/-- A single stored observation at budget 1. -/
def obOne : Observation := { x := [0], y := 0, b := 1 }

/-- Single-fidelity state holding one observation. -/
def sOne : GenState := { sEmpty with record := [obOne] }

/-- Multi-fidelity state holding one observation. -/
def mfOne : MFState := { mfEmpty with record := [obOne] }

/-- Baseline hyperparameters for witnesses. -/
def pBase : Params :=
  { gamma := 1/3, numRandomInit := 5, randomRate := none, retrain := false,
    batchSize := 64, numStepsPerIter := 100, numEpochs := none, numStarts := 5,
    distortion := none, lb := [0], ub := [1] }

/-- Baseline with epsilon-greedy exploration enabled. -/
def pEps : Params := { pBase with randomRate := some (1/2) }

/-- Baseline with a low initial-design threshold of one observation. -/
def pReady : Params := { pBase with numRandomInit := 1 }

/-- A concrete oracle family indexed by seed, for the determinism witness. -/
def oFam : Option Nat → Oracles := fun _ => oTest

/-- C4: `new_result` appends exactly one observation whose `x` is the dense
encoding of the job's configuration, whose `y` is the job's loss and whose
`b` is the job's budget, in both variants; `get_config` never mutates the
Record, so `new_result` is the controller's only mutation path into it. -/
theorem claim4_record_mutation (p : Params) (o : Oracles) (s : GenState)
    (ms : MFState) (job : Job) (budget : ℚ) :
    (newResultSF o s job).record
      = s.record ++ [{ x := o.encode job.config, y := job.loss, b := job.budget }] ∧
    (newResultMF o ms job).record
      = ms.record ++ [{ x := o.encode job.config, y := job.loss, b := job.budget }] ∧
    (getConfigSF p o s budget).state.record = s.record ∧
    (getConfigMF p o ms budget).state.record = ms.record := by
  refine ⟨rfl, rfl, ?_, ?_⟩
  · dsimp only [getConfigSF]
    split
    · rfl
    · split
      · rfl
      · split <;> rfl
  · dsimp only [getConfigMF]
    split
    · rfl
    · split
      · rfl
      · split <;> rfl

/-- C9: every `get_config` call, in both variants, draws one configuration
from the configuration-space sampler before any branching: the sampler stream
advances by exactly one position on every call, whatever branch is taken. -/
theorem claim9_sampler_always_advances (p : Params) (o : Oracles)
    (s : GenState) (ms : MFState) (budget : ℚ) :
    (getConfigSF p o s budget).state.csPos = s.csPos + 1 ∧
    (getConfigMF p o ms budget).state.csPos = ms.csPos + 1 := by
  constructor
  · dsimp only [getConfigSF]
    split
    · rfl
    · split
      · rfl
      · split <;> rfl
  · dsimp only [getConfigMF]
    split
    · rfl
    · split
      · rfl
      · split <;> rfl

/-- C1 (amended): on a call with fewer than `num_random_init` stored
observations, the freshly drawn random configuration is returned, no
classifier is built or trained and the Record is untouched; but the return
does not precede the epsilon-greedy trial: when `random_rate` is set, the
Bernoulli draw is taken from the `RandomState` stream before the
insufficient-data check fires. -/
theorem claim1_insufficient_data (p : Params) (o : Oracles) (s : GenState)
    (budget : ℚ) (h : s.record.length < p.numRandomInit) :
    (getConfigSF p o s budget).suggestion = Suggestion.random (o.csSample s.csPos) ∧
    (getConfigSF p o s budget).state.trainEpochs = s.trainEpochs ∧
    (getConfigSF p o s budget).state.logitBuilt = s.logitBuilt ∧
    (getConfigSF p o s budget).state.record = s.record ∧
    (getConfigSF p o s budget).state.rsPos
      = (if p.randomRate.isSome then s.rsPos + 1 else s.rsPos) := by
  by_cases he : epsDraw p o s.rsPos = some true
  · simp [getConfigSF, he]
  · simp [getConfigSF, he, h]

/-- Witness for C1 (amended) at `num_random_init = 5`, an empty Record and
`random_rate = 1/2`. -/
theorem claim1_insufficient_data_witness :
    (getConfigSF pEps oTest sEmpty 1).suggestion
      = Suggestion.random (oTest.csSample sEmpty.csPos) ∧
    (getConfigSF pEps oTest sEmpty 1).state.trainEpochs = sEmpty.trainEpochs ∧
    (getConfigSF pEps oTest sEmpty 1).state.logitBuilt = sEmpty.logitBuilt ∧
    (getConfigSF pEps oTest sEmpty 1).state.record = sEmpty.record ∧
    (getConfigSF pEps oTest sEmpty 1).state.rsPos
      = (if pEps.randomRate.isSome then sEmpty.rsPos + 1 else sEmpty.rsPos) :=
  claim1_insufficient_data pEps oTest sEmpty 1 (by decide)

/-- C1 counterexample: with `random_rate = 1/2`, an empty Record and
`num_random_init = 5`, the insufficient-data call returns the random
configuration without training, yet the `RandomState` stream has moved: the
epsilon-greedy Bernoulli trial was drawn before the return, so the random
configuration is not returned before the state-2 trial as claimed. -/
theorem claim1_counterexample :
    (getConfigSF pEps oTest sEmpty 1).suggestion
      = Suggestion.random (oTest.csSample 0) ∧
    (getConfigSF pEps oTest sEmpty 1).state.trainEpochs = [] ∧
    ¬ (getConfigSF pEps oTest sEmpty 1).state.rsPos = sEmpty.rsPos := by
  refine ⟨rfl, rfl, ?_⟩
  decide

/-- C2: at a call that reaches the acquisition step and finds no usable
optimum, the controller falls back to the freshly drawn random configuration
— but its entire output, log included, is identical whether every restart
failed or every optimum was a duplicate of an evaluated point: the single
combined `globMaxNotFound` warning does not distinguish the two causes, in
either variant. -/
theorem claim2_fallback_log_indistinct :
    getConfigSF pReady oTest sOne 1 = getConfigSF pReady oDup sOne 1 ∧
    (getConfigSF pReady oTest sOne 1).suggestion
      = Suggestion.random (oTest.csSample sOne.csPos) ∧
    (getConfigSF pReady oTest sOne 1).log
      = [LogMsg.globMaxNotFound pReady.numStarts] ∧
    getConfigMF pReady oTest mfOne 1 = getConfigMF pReady oDup mfOne 1 ∧
    (getConfigMF pReady oTest mfOne 1).suggestion
      = Suggestion.random (oTest.csSample mfOne.csPos) ∧
    ¬ (oTest.optimize 0 sOne.record).cause = (oDup.optimize 0 sOne.record).cause := by
  refine ⟨?_, ?_, ?_, ?_, ?_, ?_⟩ <;> decide

/-- C3 counterexample: with `random_rate` unset and an empty Record, the call
draws and returns a random configuration — a stochastic decision — while the
per-instance `RandomState` stream does not move (`rsPos` stays 0); the draw
went through the configuration space's own seeded sampler (`csPos` advanced),
so not every stochastic decision is routed through the single per-instance
generator. -/
theorem claim3_counterexample :
    (getConfigSF pBase oTest sEmpty 1).suggestion
      = Suggestion.random (oTest.csSample 0) ∧
    (getConfigSF pBase oTest sEmpty 1).state.rsPos = sEmpty.rsPos ∧
    (getConfigSF pBase oTest sEmpty 1).state.csPos = sEmpty.csPos + 1 := by
  decide

/-- C3 (amended): all randomness is deterministic given the seed — both
generators are functions of the seed, so two instances built from equal seeds
and driven through the same call sequence produce identical suggestions and
final states — but it is routed through two per-instance seeded generators,
not one: a random-configuration draw on an insufficient-data call with
`random_rate` unset consumes the configuration-space sampler stream and
leaves the `RandomState` stream untouched. -/
theorem claim3_two_seeded_generators (F : Option Nat → Oracles) (p : Params)
    (s : GenState) (calls : List Call) (a b : Option Nat) (hab : a = b) :
    runCallsSF p (F a) s calls = runCallsSF p (F b) s calls ∧
    (∀ o : Oracles, p.randomRate = none → s.record.length < p.numRandomInit →
      (getConfigSF p o s 1).suggestion = Suggestion.random (o.csSample s.csPos) ∧
      (getConfigSF p o s 1).state.rsPos = s.rsPos ∧
      (getConfigSF p o s 1).state.csPos = s.csPos + 1) := by
  subst hab
  refine ⟨rfl, ?_⟩
  intro o hrr h
  have he : ¬ epsDraw p o s.rsPos = some true := by
    simp [epsDraw, hrr]
  simp [getConfigSF, he, h, hrr]

/-- Witness for C3 (amended) at seed 7 with a one-call sequence, and the
two-generator routing fact at the concrete instance. -/
theorem claim3_two_seeded_generators_witness :
    runCallsSF pBase (oFam (some 7)) sEmpty [Call.getCfg 1]
      = runCallsSF pBase (oFam (some 7)) sEmpty [Call.getCfg 1] ∧
    ((getConfigSF pBase oTest sEmpty 1).suggestion
        = Suggestion.random (oTest.csSample sEmpty.csPos) ∧
      (getConfigSF pBase oTest sEmpty 1).state.rsPos = sEmpty.rsPos ∧
      (getConfigSF pBase oTest sEmpty 1).state.csPos = sEmpty.csPos + 1) :=
  ⟨(claim3_two_seeded_generators oFam pBase sEmpty [Call.getCfg 1]
      (some 7) (some 7) rfl).1,
   (claim3_two_seeded_generators oFam pBase sEmpty [Call.getCfg 1]
      (some 7) (some 7) rfl).2 oTest rfl (by decide)⟩

/-- C5: construction with `gamma` outside the open interval (0,1), or with
`random_rate` set to a value outside [0,1), fails the constructor validation
with `InvalidParameter` in both variants, so no instance is created. -/
theorem claim5_invalid_params (gamma : ℚ) (nri : Nat) (rr : Option ℚ)
    (ns : Nat) (retrain : Bool)
    (h : ¬ (0 < gamma ∧ gamma < 1) ∨ ∃ r, rr = some r ∧ ¬ (0 ≤ r ∧ r < 1)) :
    initChecksSF gamma nri rr ns retrain = Except.error InitError.invalidParameter ∧
    initChecksMF gamma nri rr ns retrain = Except.error InitError.invalidParameter := by
  rcases h with hg | ⟨r, hrr, hr⟩
  · constructor <;> simp [initChecksSF, initChecksMF, hg]
  · subst hrr
    have hv : ¬ (validRandomRate (some r) = true) := by
      simp [validRandomRate, hr]
    constructor <;>
      · simp only [initChecksSF, initChecksMF]
        split_ifs <;> simp_all

/-- Witness for C5 with `gamma = 2` (and separately an out-of-range
`random_rate = 1`). -/
theorem claim5_invalid_params_witness :
    (initChecksSF 2 10 none 5 false = Except.error InitError.invalidParameter ∧
      initChecksMF 2 10 none 5 false = Except.error InitError.invalidParameter) ∧
    (initChecksSF (1/2) 10 (some 1) 5 false = Except.error InitError.invalidParameter ∧
      initChecksMF (1/2) 10 (some 1) 5 false = Except.error InitError.invalidParameter) :=
  ⟨claim5_invalid_params 2 10 none 5 false (Or.inl (by norm_num)),
   claim5_invalid_params (1/2) 10 (some 1) 5 false
     (Or.inr ⟨1, rfl, by norm_num⟩)⟩

/-- C10: with in-range hyperparameters, multi-fidelity construction with
`retrain = true` always fails with `NotImplementedError` while
`retrain = false` succeeds, and single-fidelity construction succeeds with
either value of `retrain`. -/
theorem claim10_mf_retrain_not_implemented (gamma : ℚ) (nri ns : Nat)
    (rr : Option ℚ) (hg : 0 < gamma ∧ gamma < 1) (hn : nri ≠ 0)
    (hr : validRandomRate rr = true) (hs : ns ≠ 0) :
    initChecksMF gamma nri rr ns true = Except.error InitError.notImplemented ∧
    initChecksMF gamma nri rr ns false = Except.ok () ∧
    (∀ retrain, initChecksSF gamma nri rr ns retrain = Except.ok retrain) := by
  obtain ⟨hg1, hg2⟩ := hg
  refine ⟨?_, ?_, fun retrain => ?_⟩ <;>
    simp [initChecksMF, initChecksSF, hg1, hg2, hn, hr, hs]

/-- Witness for C10 at `gamma = 1/2`, `num_random_init = 10`,
`random_rate` unset, `num_starts = 5`. -/
theorem claim10_mf_retrain_not_implemented_witness :
    initChecksMF (1/2) 10 none 5 true = Except.error InitError.notImplemented ∧
    initChecksMF (1/2) 10 none 5 false = Except.ok () ∧
    initChecksSF (1/2) 10 none 5 true = Except.ok true :=
  ⟨(claim10_mf_retrain_not_implemented (1/2) 10 5 none (by norm_num)
      (by decide) (by decide) (by decide)).1,
   (claim10_mf_retrain_not_implemented (1/2) 10 5 none (by norm_num)
      (by decide) (by decide) (by decide)).2.1,
   (claim10_mf_retrain_not_implemented (1/2) 10 5 none (by norm_num)
      (by decide) (by decide) (by decide)).2.2 true⟩

/-- Characterization of the downward rung scan: a hit is an eligible rung and
every rung above it, below the scan start, is ineligible. -/
theorem highestRungAux_spec (r : List Observation) (m : Nat) :
    ∀ n t, highestRungAux r m n = some t →
      m ≤ rungSize r t ∧ t < n ∧ ∀ u, t < u → u < n → rungSize r u < m := by
  intro n
  induction n with
  | zero => intro t h; simp [highestRungAux] at h
  | succ k ih =>
      intro t h
      by_cases hk : m ≤ rungSize r k
      · rw [highestRungAux, if_pos hk] at h
        injection h with h
        subst h
        exact ⟨hk, Nat.lt_succ_self _, fun u hu1 hu2 => by omega⟩
      · rw [highestRungAux, if_neg hk] at h
        obtain ⟨h1, h2, h3⟩ := ih t h
        refine ⟨h1, by omega, fun u hu1 hu2 => ?_⟩
        rcases Nat.lt_succ_iff_lt_or_eq.mp hu2 with hu | hu
        · exact h3 u hu1 hu
        · subst hu; omega

/-- The rung a multi-fidelity call selects: none when the epsilon-greedy
trial fires, else exactly what `highest_rung` returns. -/
theorem getConfigMF_selectedRung (p : Params) (o : Oracles) (ms : MFState)
    (budget : ℚ) :
    (getConfigMF p o ms budget).selectedRung
      = if epsDraw p o ms.rsPos = some true then none
        else highestRung ms.record p.numRandomInit := by
  by_cases he : epsDraw p o ms.rsPos = some true
  · simp [getConfigMF, he]
  · rcases hr : highestRung ms.record p.numRandomInit with _ | t
    · simp [getConfigMF, he, hr]
    · simp [getConfigMF, he, hr]
      split <;> rfl

/-- The multi-fidelity call suggests the random configuration and trains
nothing when no rung is eligible. -/
theorem getConfigMF_no_rung_no_train (p : Params) (o : Oracles) (ms : MFState)
    (budget : ℚ) (hn : highestRung ms.record p.numRandomInit = none) :
    (getConfigMF p o ms budget).suggestion = Suggestion.random (o.csSample ms.csPos) ∧
    (getConfigMF p o ms budget).state.trainEpochs = ms.trainEpochs := by
  by_cases he : epsDraw p o ms.rsPos = some true
  · simp [getConfigMF, he]
  · simp [getConfigMF, he, hn]

/-- C6: in the multi-fidelity variant, when `highest_rung(min_size =
num_random_init)` returns none the call returns the random configuration
without training and selects no rung; and whenever the call selects a rung
`t`, that `t` is `highest_rung`'s answer: rung `t` holds at least
`num_random_init` observations and every higher-budget rung holds fewer. -/
theorem claim6_highest_rung (p : Params) (o : Oracles) (ms : MFState)
    (budget : ℚ) :
    (highestRung ms.record p.numRandomInit = none →
      (getConfigMF p o ms budget).suggestion
        = Suggestion.random (o.csSample ms.csPos) ∧
      (getConfigMF p o ms budget).state.trainEpochs = ms.trainEpochs ∧
      (getConfigMF p o ms budget).selectedRung = none) ∧
    (∀ t, (getConfigMF p o ms budget).selectedRung = some t →
      highestRung ms.record p.numRandomInit = some t ∧
      p.numRandomInit ≤ rungSize ms.record t ∧
      t < numRungs ms.record ∧
      ∀ u, t < u → u < numRungs ms.record →
        rungSize ms.record u < p.numRandomInit) := by
  constructor
  · intro hn
    obtain ⟨h1, h2⟩ := getConfigMF_no_rung_no_train p o ms budget hn
    refine ⟨h1, h2, ?_⟩
    rw [getConfigMF_selectedRung]
    simp [hn]
  · intro t ht
    rw [getConfigMF_selectedRung] at ht
    have hsome : highestRung ms.record p.numRandomInit = some t := by
      by_cases he : epsDraw p o ms.rsPos = some true
      · rw [if_pos he] at ht
        simp at ht
      · rwa [if_neg he] at ht
    obtain ⟨h1, h2, h3⟩ :=
      highestRungAux_spec ms.record p.numRandomInit (numRungs ms.record) t hsome
    exact ⟨hsome, h1, h2, h3⟩

/-- Witness for C6 on an empty multi-fidelity record, where no rung is
eligible. -/
theorem claim6_highest_rung_witness :
    (getConfigMF pBase oTest mfEmpty 1).suggestion
      = Suggestion.random (oTest.csSample mfEmpty.csPos) ∧
    (getConfigMF pBase oTest mfEmpty 1).state.trainEpochs = mfEmpty.trainEpochs ∧
    (getConfigMF pBase oTest mfEmpty 1).selectedRung = none :=
  (claim6_highest_rung pBase oTest mfEmpty 1).1 (by decide)

/-- Ceiling division `(n + b - 1) / b` agrees with the rational ceiling of
`n / b`, matching `int(np.ceil(np.true_divide(dataset_size, batch_size)))`. -/
theorem getStepsPerEpoch_eq_ceil (n b : Nat) (hb : 0 < b) :
    getStepsPerEpoch n b = Nat.ceil ((n : ℚ) / (b : ℚ)) := by
  have hdef : getStepsPerEpoch n b = n ⌈/⌉ b := rfl
  have hub : n ≤ b * (n ⌈/⌉ b) := (ceilDiv_le_iff_le_mul hb).mp le_rfl
  have hbq : (0 : ℚ) < (b : ℚ) := by exact_mod_cast hb
  rcases Nat.eq_zero_or_pos (n ⌈/⌉ b) with h0 | hpos
  · have hn : n = 0 := by rw [h0, Nat.mul_zero] at hub; omega
    rw [hdef, h0, hn]
    simp
  · have hlb : b * (n ⌈/⌉ b - 1) < n := by
      by_contra hcon
      push_neg at hcon
      have hle : n ⌈/⌉ b ≤ n ⌈/⌉ b - 1 := (ceilDiv_le_iff_le_mul hb).mpr hcon
      omega
    rw [hdef]
    symm
    rw [Nat.ceil_eq_iff (by omega : n ⌈/⌉ b ≠ 0)]
    constructor
    · rw [lt_div_iff₀ hbq]
      have hlb2 : (n ⌈/⌉ b - 1) * b < n := by
        rw [Nat.mul_comm]
        exact hlb
      exact_mod_cast hlb2
    · rw [div_le_iff₀ hbq]
      have hub2 : n ≤ (n ⌈/⌉ b) * b := by
        rw [Nat.mul_comm]
        exact hub
      exact_mod_cast hub2

/-- C7: each training call uses the explicit `num_epochs` when one is given
(the derived value is ignored); otherwise it uses `num_steps_per_iter`
integer-divided by `steps_per_epoch`, where `steps_per_epoch` is the ceiling
of the dataset size over the batch size; and whenever `get_config` trains, it
appends exactly that epoch count for the current dataset size. -/
theorem claim7_epoch_derivation (p : Params) (o : Oracles) (s : GenState)
    (budget : ℚ) (n e b : Nat) :
    ((getConfigSF p o s budget).state.trainEpochs = s.trainEpochs ∨
      (getConfigSF p o s budget).state.trainEpochs
        = s.trainEpochs ++ [numEpochsUsed p s.record.length]) ∧
    (p.numEpochs = some e → numEpochsUsed p n = e) ∧
    (p.numEpochs = none →
      numEpochsUsed p n = p.numStepsPerIter / getStepsPerEpoch n p.batchSize) ∧
    (0 < b → getStepsPerEpoch n b = Nat.ceil ((n : ℚ) / (b : ℚ))) := by
  refine ⟨?_, ?_, ?_, getStepsPerEpoch_eq_ceil n b⟩
  · by_cases he : epsDraw p o s.rsPos = some true
    · left; simp [getConfigSF, he]
    · by_cases hd : s.record.length < p.numRandomInit
      · left; simp [getConfigSF, he, hd]
      · right
        simp [getConfigSF, he, hd]
        split <;> rfl
  · intro h; simp [numEpochsUsed, h]
  · intro h; simp [numEpochsUsed, h]

/-- Witness for C7: with `num_epochs` unset, dataset size 1 and batch size
64 give `steps_per_epoch = 1` and 100 epochs; the ceiling fact at `b = 64`. -/
theorem claim7_epoch_derivation_witness :
    numEpochsUsed pBase 1 = pBase.numStepsPerIter / getStepsPerEpoch 1 pBase.batchSize ∧
    getStepsPerEpoch 1 64 = Nat.ceil ((1 : ℚ) / (64 : ℚ)) :=
  ⟨(claim7_epoch_derivation pBase oTest sEmpty 1 1 0 64).2.2.1 rfl,
   (claim7_epoch_derivation pBase oTest sEmpty 1 1 0 64).2.2.2 (by decide)⟩

/-- Coordinate view of the modelled truncated-normal draw. -/
theorem truncatedNormalDraw_getD (loc lb ub noise : Vec) (scale : ℚ) (i : Nat)
    (h : i < loc.length) :
    (truncatedNormalDraw loc scale lb ub noise).getD i 0
      = clip (lb.getD i 0) (ub.getD i 0) (loc.getD i 0 + scale * noise.getD i 0) := by
  simp [truncatedNormalDraw, List.getD_eq_getElem?_getD, List.getElem?_map,
    List.getElem?_range, h]

/-- C8: with no distortion configured, `maybe_distort` returns the optimum
vector unchanged, so the suggestion decodes exactly the arg-optimum the
acquisition optimizer produced; with a distortion scale configured, the
suggestion is the truncated-normal draw centered at the optimum, every
coordinate clipped into the box bounds; and every model-branch suggestion of
`get_config` is `maybe_distort` applied to an optimum returned by the
acquisition optimizer. -/
theorem claim8_distortion (p : Params) (o : Oracles) (s : GenState)
    (budget : ℚ) (loc lb ub noise : Vec) (scale : ℚ) (i : Nat) :
    maybeDistort loc none lb ub noise = loc ∧
    (i < loc.length → lb.getD i 0 ≤ ub.getD i 0 →
      lb.getD i 0 ≤ (truncatedNormalDraw loc scale lb ub noise).getD i 0 ∧
      (truncatedNormalDraw loc scale lb ub noise).getD i 0 ≤ ub.getD i 0) ∧
    ((getConfigSF p o s budget).suggestion = Suggestion.random (o.csSample s.csPos) ∨
      ∃ res pos, (o.optimize pos s.record).result = some res ∧
        (getConfigSF p o s budget).suggestion
          = Suggestion.model
              (maybeDistort res.x p.distortion p.lb p.ub
                (o.noise (pos + (o.optimize pos s.record).consumed)))) := by
  refine ⟨rfl, ?_, ?_⟩
  · intro hi hlu
    rw [truncatedNormalDraw_getD loc lb ub noise scale i hi]
    unfold clip
    exact ⟨le_max_left _ _, max_le hlu (min_le_left _ _)⟩
  · by_cases he : epsDraw p o s.rsPos = some true
    · left; simp [getConfigSF, he]
    · by_cases hd : s.record.length < p.numRandomInit
      · left; simp [getConfigSF, he, hd]
      · rcases ho : (o.optimize
            (if p.randomRate.isSome then s.rsPos + 1 else s.rsPos)
            s.record).result with _ | res
        · left; simp [getConfigSF, he, hd, ho]
        · right
          refine ⟨res, if p.randomRate.isSome then s.rsPos + 1 else s.rsPos,
            ho, ?_⟩
          simp [getConfigSF, he, hd, ho]

/-- Witness for C8: the distorted coordinate stays inside the box `[0, 1]`
for optimum 5, scale 1, zero noise. -/
theorem claim8_distortion_witness :
    ([0] : Vec).getD 0 0
      ≤ (truncatedNormalDraw ([5] : Vec) 1 ([0] : Vec) ([1] : Vec) ([0] : Vec)).getD 0 0 ∧
    (truncatedNormalDraw ([5] : Vec) 1 ([0] : Vec) ([1] : Vec) ([0] : Vec)).getD 0 0
      ≤ ([1] : Vec).getD 0 0 :=
  (claim8_distortion pBase oTest sEmpty 1 ([5] : Vec) ([0] : Vec) ([1] : Vec)
    ([0] : Vec) 1 0).2.1 (by decide) (by decide)

end Bore
